import Mathlib

/-!
Verification of the collaborative restaurant-order core
(QR table sessions, shared order aggregate, totals, status lifecycle,
bill split) as implemented in the backend services and controllers.

Money values are modelled as exact rationals; the JavaScript
`x.toFixed(2)` storage step is modelled by `toFixed2`, rounding to two
decimal places with ties going up (for the non-negative money values
used here this coincides with JavaScript's half-away-from-zero).
Database rows are lists of records; `findByPk` / `findOne` are `find?`,
`update` is a map over the row list.
-/

/-- Order lifecycle statuses (`Order.status` ENUM in the model). -/
inductive OrderStatus
  | pending | confirmed | preparing | ready | served | completed | cancelled
deriving DecidableEq, Repr

/-- Physical table statuses (`Table.status`). -/
inductive TableStatus
  | available | occupied | reserved | maintenance
deriving DecidableEq, Repr

/-- Row of the `restaurants` table (fields used by the core). -/
structure RestaurantRec where
  restaurant_id : Nat
  tax_rate : ℚ
  service_charge_rate : ℚ
  is_active : Bool
deriving DecidableEq, Repr

/-- Row of the `tables` table (fields used by the core). -/
structure TableRec where
  table_id : Nat
  restaurant_id : Nat
  status : TableStatus
deriving DecidableEq, Repr

/-- Row of the `orders` table (fields used by the core). -/
structure OrderRec where
  order_id : Nat
  restaurant_id : Nat
  table_id : Nat
  status : OrderStatus
  subtotal : ℚ
  tax_amount : ℚ
  service_charge : ℚ
  discount_amount : ℚ
  total_amount : ℚ
  created_at : Nat
deriving DecidableEq, Repr

/-- Row of the `order_items` table. -/
structure OrderItemRec where
  order_item_id : Nat
  order_id : Nat
  menu_item_id : Nat
  added_by_guest_id : Nat
  quantity : Nat
  unit_price : ℚ
  subtotal : ℚ
deriving DecidableEq, Repr

/-- Row of the `order_guests` table; the session token is opaque. -/
structure OrderGuestRec where
  guest_id : Nat
  order_id : Nat
  session_token : Nat
deriving DecidableEq, Repr

/-- Row of the `menu_items` table (fields used by the core). -/
structure MenuItemRec where
  menu_item_id : Nat
  price : ℚ
  is_available : Bool
deriving DecidableEq, Repr

/-- The persistent store: one list per table, plus id counters standing
for the auto-increment primary keys. -/
structure DB where
  restaurants : List RestaurantRec
  tables : List TableRec
  orders : List OrderRec
  orderItems : List OrderItemRec
  guests : List OrderGuestRec
  menuItems : List MenuItemRec
  nextOrderId : Nat
  nextOrderItemId : Nat
deriving DecidableEq, Repr

/-- Model of `x.toFixed(2)`: round to 2 decimal places, ties rounding up. -/
def toFixed2 (q : ℚ) : ℚ := (Int.floor (q * 100 + 1/2) : ℚ) / 100

/-- A rational that is a whole number of cents (2-decimal value). -/
def isCents (q : ℚ) : Prop := ∃ n : ℤ, q = (n : ℚ) / 100

lemma toFixed2_cents (q : ℚ) : isCents (toFixed2 q) :=
  ⟨Int.floor (q * 100 + 1/2), rfl⟩

lemma toFixed2_of_isCents {q : ℚ} (h : isCents q) : toFixed2 q = q := by
  obtain ⟨n, rfl⟩ := h
  unfold toFixed2
  have h100 : ((n : ℚ) / 100) * 100 = (n : ℚ) := by
    field_simp
  rw [h100]
  have : Int.floor ((n : ℚ) + 1/2) = n := by
    rw [Int.floor_eq_iff]
    constructor
    · linarith
    · linarith
  rw [this]

lemma toFixed2_le (q : ℚ) : toFixed2 q ≤ q + 1/200 := by
  unfold toFixed2
  have h := Int.floor_le (q * 100 + 1/2)
  rw [div_le_iff₀ (by norm_num : (0:ℚ) < 100)]
  linarith

lemma lt_toFixed2 (q : ℚ) : q - 1/200 < toFixed2 q := by
  unfold toFixed2
  have h := Int.lt_floor_add_one (q * 100 + 1/2)
  rw [lt_div_iff₀ (by norm_num : (0:ℚ) < 100)]
  linarith

/-- At an exact half-cent, `toFixed2` rounds upward. -/
lemma toFixed2_half_rounds_up (n : ℤ) :
    toFixed2 (((2 * n + 1 : ℤ) : ℚ) / 200) = ((n + 1 : ℤ) : ℚ) / 100 := by
  unfold toFixed2
  have harg : ((2 * n + 1 : ℤ) : ℚ) / 200 * 100 + 1/2 = ((n + 1 : ℤ) : ℚ) := by
    push_cast
    ring
  rw [harg, Int.floor_intCast]

/-! ## Generic row access (Sequelize `findByPk` / `findOne` / `update`) -/

/-- Model of `Order.findByPk(orderId)`. -/
def findOrder (db : DB) (oid : Nat) : Option OrderRec :=
  db.orders.find? (fun o => o.order_id == oid)

/-- The `restaurant` association join of an order. -/
def findRestaurant (db : DB) (rid : Nat) : Option RestaurantRec :=
  db.restaurants.find? (fun r => r.restaurant_id == rid)

/-- The `items` association of an order (`OrderItem` rows with this
`order_id`). -/
def itemsOf (db : DB) (oid : Nat) : List OrderItemRec :=
  db.orderItems.filter (fun it => it.order_id == oid)

/-- Model of `order.update({...})`: rewrite the order row with this primary key. -/
def updateOrderRow (db : DB) (oid : Nat) (f : OrderRec → OrderRec) : DB :=
  { db with orders := db.orders.map (fun o => if o.order_id == oid then f o else o) }

/-- Model of `Table.update({status}, {where: {table_id}})`. -/
def updateTableRow (db : DB) (tid : Nat) (s : TableStatus) : DB :=
  { db with tables := db.tables.map (fun t => if t.table_id == tid then { t with status := s } else t) }

/-- Model of `orderItem.update({...})`: rewrite the item row with this primary key. -/
def updateItemRow (db : DB) (itemId : Nat) (f : OrderItemRec → OrderItemRec) : DB :=
  { db with orderItems := db.orderItems.map (fun it => if it.order_item_id == itemId then f it else it) }

/-- Model of `orderItem.destroy()`: delete the item row with this primary key. -/
def destroyItemRow (db : DB) (itemId : Nat) : DB :=
  { db with orderItems := db.orderItems.filter (fun it => !(it.order_item_id == itemId)) }

/-! ## Session Manager (`qr.service.js`) -/

/-- The status list used by `getOrCreateTableSession`'s `findOne`
(`status: ['pending', 'confirmed', 'preparing']`, qr.service.js:158).
Note it does not contain `ready`. -/
def scanActiveStatuses : List OrderStatus := [.pending, .confirmed, .preparing]

/-- Does an order row match `getOrCreateTableSession`'s `where` clause? -/
def matchesScan (tid rid : Nat) (o : OrderRec) : Bool :=
  o.table_id == tid && o.restaurant_id == rid && scanActiveStatuses.contains o.status

/-- Model of `ORDER BY created_at DESC LIMIT 1`: the row with the greatest
`created_at` (earlier row wins ties). -/
def mostRecent : List OrderRec → Option OrderRec
  | [] => none
  | o :: rest =>
    match mostRecent rest with
    | none => some o
    | some b => if b.created_at > o.created_at then some b else some o

/-- The `Order.findOne` at the start of `getOrCreateTableSession`. -/
def findActiveOrder (db : DB) (tid rid : Nat) : Option OrderRec :=
  mostRecent (db.orders.filter (matchesScan tid rid))

/-- The creation branch of `getOrCreateTableSession`: insert a fresh
`pending` order with zeroed totals and mark the table occupied.
Returns the new state and the created order's id. -/
def createOrderForTable (db : DB) (tid rid : Nat) : DB × Nat :=
  let o : OrderRec :=
    { order_id := db.nextOrderId
      restaurant_id := rid
      table_id := tid
      status := .pending
      subtotal := 0
      tax_amount := 0
      service_charge := 0
      discount_amount := 0
      total_amount := 0
      created_at := db.nextOrderId }
  let db1 : DB := { db with orders := db.orders ++ [o], nextOrderId := db.nextOrderId + 1 }
  (updateTableRow db1 tid .occupied, o.order_id)

/-- The operation `getOrCreateTableSession(tableId, restaurantId)` run atomically:
find the active order, else create one. Returns the new state, the
resolved order id, and whether a new order was created. -/
def getOrCreateTableSession (db : DB) (tid rid : Nat) : DB × Nat × Bool :=
  match findActiveOrder db tid rid with
  | some o => (db, o.order_id, false)
  | none =>
    let (db1, oid) := createOrderForTable db tid rid
    (db1, oid, true)

/-! Interleaving model of two concurrent `getOrCreateTableSession`
calls. Each call suspends at its `await` points, so its `findOne`
(read) and its `Order.create` (write) are separate atomic steps that
another call's steps may come between. -/

/-- The progress of one in-flight scan request. -/
structure ScanTask where
  readDone : Bool
  found : Option Nat
  result : Option Nat
deriving DecidableEq, Repr

/-- Initial state of a scan request. -/
def ScanTask.init : ScanTask := { readDone := false, found := none, result := none }

/-- Run the next pending step of one scan task: first the `findOne`
read, then the conditional create / join write. -/
def stepScan (db : DB) (tid rid : Nat) (t : ScanTask) : DB × ScanTask :=
  if !t.readDone then
    (db, { t with readDone := true, found := (findActiveOrder db tid rid).map (·.order_id) })
  else if t.result.isSome then
    (db, t)
  else
    match t.found with
    | some oid => (db, { t with result := some oid })
    | none =>
      let (db1, oid) := createOrderForTable db tid rid
      (db1, { t with result := some oid })

/-- Run two concurrent scan requests under a schedule: `true` steps the
first request, `false` the second. -/
def runTwoScans (db : DB) (tid rid : Nat) (sched : List Bool) : DB × ScanTask × ScanTask :=
  sched.foldl
    (fun (st : DB × ScanTask × ScanTask) (b : Bool) =>
      let (db0, tA, tB) := st
      if b then
        let (db1, tA1) := stepScan db0 tid rid tA
        (db1, tA1, tB)
      else
        let (db1, tB1) := stepScan db0 tid rid tB
        (db1, tA, tB1))
    (db, ScanTask.init, ScanTask.init)

/-! ## Guest Registry (`qr.service.js`) -/

/-- The active-status list used by `validateGuestSession`
(qr.service.js:298); unlike the scan path it contains `ready`. -/
def sessionActiveStatuses : List OrderStatus := [.pending, .confirmed, .preparing, .ready]

/-- Resolved guest context returned by a successful session validation. -/
structure GuestCtx where
  guestId : Nat
  orderId : Nat
deriving DecidableEq, Repr

/-- The operation `validateGuestSession(sessionToken)`: look the token up, then check
the bound order is still in the active set. Errors carry the exact
source message. -/
def validateGuestSession (db : DB) (tok : Nat) : Except String GuestCtx :=
  match db.guests.find? (fun g => g.session_token == tok) with
  | none => .error "Invalid session token"
  | some g =>
    match findOrder db g.order_id with
    | none => .error "Invalid session token"
    | some o =>
      if sessionActiveStatuses.contains o.status then
        .ok { guestId := g.guest_id, orderId := g.order_id }
      else
        .error "Order session has ended"

/-! ## Error taxonomy (`middleware/errorHandler.js` `ErrorTypes` and
`AppError` uses in the order controller) -/

/-- The error outcomes the order endpoints can produce; string payloads
are the source's messages. `unauthorized` wraps a failed session
validation (HTTP 401). -/
inductive ApiError
  | badRequest (msg : String)
  | unauthorized (msg : String)
  | forbidden (msg : String)
  | notFound (resource : String)
  | menuItemUnavailable
  | invalidOrderStatus
deriving DecidableEq, Repr

/-! ## Totals Engine (`order.controller.js` `recalculateOrderTotals`,
`order.service.js` `calculateOrderTotals`) -/

/-- The raw (un-rounded) subtotal: the `reduce` over the order's item
subtotals shared by both totals computations. -/
def rawSubtotal (db : DB) (oid : Nat) : ℚ :=
  (itemsOf db oid).foldl (fun s it => s + it.subtotal) 0

/-- The helper `recalculateOrderTotals(orderId)` (order controller):
subtotal is the sum of item subtotals, tax and service are computed
from that un-rounded sum, total is their sum, and all four fields are
stored through `toFixed(2)`. If the order is missing the state is
unchanged (the helper returns early); a missing restaurant join is
modelled the same way. -/
def recalculateOrderTotals (db : DB) (oid : Nat) : DB :=
  match findOrder db oid with
  | none => db
  | some o =>
    match findRestaurant db o.restaurant_id with
    | none => db
    | some r =>
      let subtotal := rawSubtotal db oid
      let taxRate := r.tax_rate / 100
      let serviceChargeRate := r.service_charge_rate / 100
      let taxAmount := subtotal * taxRate
      let serviceCharge := subtotal * serviceChargeRate
      let totalAmount := subtotal + taxAmount + serviceCharge
      updateOrderRow db oid (fun o =>
        { o with
          subtotal := toFixed2 subtotal
          tax_amount := toFixed2 taxAmount
          service_charge := toFixed2 serviceCharge
          total_amount := toFixed2 totalAmount })

/-- The service `calculateOrderTotals(orderId)`: same arithmetic as
the controller helper, returned as a quadruple
(subtotal, taxAmount, serviceCharge, totalAmount) instead of stored. -/
def calculateOrderTotals (db : DB) (oid : Nat) : Option (ℚ × ℚ × ℚ × ℚ) :=
  match findOrder db oid with
  | none => none
  | some o =>
    match findRestaurant db o.restaurant_id with
    | none => none
    | some r =>
      let subtotal := rawSubtotal db oid
      let taxRate := r.tax_rate / 100
      let serviceChargeRate := r.service_charge_rate / 100
      let taxAmount := subtotal * taxRate
      let serviceCharge := subtotal * serviceChargeRate
      let totalAmount := subtotal + taxAmount + serviceCharge
      some (toFixed2 subtotal, toFixed2 taxAmount, toFixed2 serviceCharge, toFixed2 totalAmount)

/-! ## Order Aggregate mutations (`order.controller.js`) -/

/-- The endpoint `addItemToOrder` (POST /api/orders/items): validate inputs and the
guest session, look the menu item up, snapshot its price, insert the
item, then recalculate totals. There is no check of the order's own
status beyond the session validation. Returns the created item's id. -/
def addItemToOrder (db : DB) (tok menuItemId : Nat) (quantity : Nat) : DB × Except ApiError Nat :=
  if quantity < 1 then
    (db, .error (.badRequest "Quantity must be at least 1"))
  else
    match validateGuestSession db tok with
    | .error msg => (db, .error (.unauthorized msg))
    | .ok g =>
      match db.menuItems.find? (fun m => m.menu_item_id == menuItemId) with
      | none => (db, .error (.notFound "Menu item"))
      | some mi =>
        if !mi.is_available then
          (db, .error .menuItemUnavailable)
        else
          let unitPrice := mi.price
          let sub := unitPrice * quantity
          let item : OrderItemRec :=
            { order_item_id := db.nextOrderItemId
              order_id := g.orderId
              menu_item_id := menuItemId
              added_by_guest_id := g.guestId
              quantity := quantity
              unit_price := unitPrice
              subtotal := sub }
          let db1 : DB := { db with orderItems := db.orderItems ++ [item],
                                    nextOrderItemId := db.nextOrderItemId + 1 }
          (recalculateOrderTotals db1 g.orderId, .ok item.order_item_id)

/-- The endpoint `updateOrderItem` (PATCH /api/orders/items/:itemId): validate the
session, find the item, and reject with Forbidden exactly when the item
belongs to another order; otherwise update quantity and subtotal and
recalculate totals. The adding guest is never compared with the caller. -/
def updateOrderItem (db : DB) (tok itemId : Nat) (quantity : Nat) : DB × Except ApiError Unit :=
  if quantity < 1 then
    (db, .error (.badRequest "Quantity must be at least 1"))
  else
    match validateGuestSession db tok with
    | .error msg => (db, .error (.unauthorized msg))
    | .ok g =>
      match db.orderItems.find? (fun it => it.order_item_id == itemId) with
      | none => (db, .error (.notFound "Order item"))
      | some it =>
        if it.order_id ≠ g.orderId then
          (db, .error (.forbidden "This item does not belong to your order"))
        else
          let newSubtotal := it.unit_price * quantity
          let db1 := updateItemRow db itemId (fun it =>
            { it with quantity := quantity, subtotal := newSubtotal })
          (recalculateOrderTotals db1 g.orderId, .ok ())

/-- The endpoint `removeOrderItem` (DELETE /api/orders/items/:itemId): same ownership
rule as `updateOrderItem`, then destroy the row and recalculate. -/
def removeOrderItem (db : DB) (tok itemId : Nat) : DB × Except ApiError Unit :=
  match validateGuestSession db tok with
  | .error msg => (db, .error (.unauthorized msg))
  | .ok g =>
    match db.orderItems.find? (fun it => it.order_item_id == itemId) with
    | none => (db, .error (.notFound "Order item"))
    | some it =>
      if it.order_id ≠ g.orderId then
        (db, .error (.forbidden "This item does not belong to your order"))
      else
        let db1 := destroyItemRow db itemId
        (recalculateOrderTotals db1 g.orderId, .ok ())

/-! ## Order submission and status machine (`order.controller.js`,
`socket/kitchenHandlers.js`) -/

/-- The endpoint `submitOrder` (POST /api/orders/:orderId/submit): session, order
ownership, order existence, non-empty item list, then current status
must be `pending`; on success the status becomes `confirmed`. -/
def submitOrder (db : DB) (tok oid : Nat) : DB × Except ApiError Unit :=
  match validateGuestSession db tok with
  | .error msg => (db, .error (.unauthorized msg))
  | .ok g =>
    if g.orderId ≠ oid then
      (db, .error (.forbidden "Access denied"))
    else
      match findOrder db oid with
      | none => (db, .error (.notFound "Order"))
      | some o =>
        if (itemsOf db oid).isEmpty then
          (db, .error (.badRequest "Cannot submit an empty order"))
        else if o.status ≠ .pending then
          (db, .error .invalidOrderStatus)
        else
          (updateOrderRow db oid (fun o => { o with status := .confirmed }), .ok ())

/-- The status whitelist of the HTTP staff route
(PATCH /api/admin/orders/:orderId/status): all seven statuses. -/
def httpValidStatuses : List OrderStatus :=
  [.pending, .confirmed, .preparing, .ready, .served, .completed, .cancelled]

/-- The status whitelist of the socket `update-order-status` handler:
`pending` is absent. -/
def socketValidStatuses : List OrderStatus :=
  [.confirmed, .preparing, .ready, .served, .completed, .cancelled]

/-- Shared body of both staff status-update paths: check the target is
whitelisted, find the order within the restaurant, set the status
unconditionally, and release the table when the target is `completed`
or `cancelled`. No relation between current and target status is ever
checked. -/
def updateOrderStatusWith (valid : List OrderStatus) (db : DB) (rid oid : Nat)
    (status : OrderStatus) : DB × Except ApiError OrderStatus :=
  if !valid.contains status then
    (db, .error (.badRequest "Invalid status value"))
  else
    match db.orders.find? (fun o => o.order_id == oid && o.restaurant_id == rid) with
    | none => (db, .error (.notFound "Order"))
    | some o =>
      let db1 := updateOrderRow db oid (fun o => { o with status := status })
      let db2 :=
        if status = .completed ∨ status = .cancelled then
          updateTableRow db1 o.table_id .available
        else db1
      (db2, .ok status)

/-- The endpoint `updateOrderStatus` (HTTP admin route). -/
def updateOrderStatus (db : DB) (rid oid : Nat) (status : OrderStatus) :
    DB × Except ApiError OrderStatus :=
  updateOrderStatusWith httpValidStatuses db rid oid status

/-- The socket `update-order-status` handler. -/
def kitchenUpdateOrderStatus (db : DB) (rid oid : Nat) (status : OrderStatus) :
    DB × Except ApiError OrderStatus :=
  updateOrderStatusWith socketValidStatuses db rid oid status

/-! ## Bill Split Calculator (`order.service.js` `calculateBillSplit`) -/

/-- One guest's bill, after the per-guest rounding step. -/
structure GuestBill where
  guestId : Nat
  subtotal : ℚ
  taxAmount : ℚ
  serviceCharge : ℚ
  total : ℚ
deriving DecidableEq, Repr

/-- Add one item subtotal into the per-guest accumulator object
(`guestTotals[guestId].subtotal += ...`, creating the entry on first
sight). -/
def upsertGuest (acc : List (Nat × ℚ)) (gid : Nat) (v : ℚ) : List (Nat × ℚ) :=
  match acc with
  | [] => [(gid, v)]
  | (g, s) :: rest =>
    if g = gid then (g, s + v) :: rest else (g, s) :: upsertGuest rest gid v

/-- The grouping loop of `calculateBillSplit`: fold the order's items
into per-guest raw subtotals. -/
def billSplitRaw (items : List OrderItemRec) : List (Nat × ℚ) :=
  items.foldl (fun acc it => upsertGuest acc it.added_by_guest_id it.subtotal) []

/-- The service `calculateBillSplit(orderId)`: group items by adding guest, apply
the restaurant's tax and service rates independently to each guest's
own raw subtotal, round every per-guest field to 2 decimals, and return
the bills together with the order's stored `total_amount`. -/
def calculateBillSplit (db : DB) (oid : Nat) : Except String (List GuestBill × ℚ) :=
  match findOrder db oid with
  | none => .error "Order not found"
  | some o =>
    match findRestaurant db o.restaurant_id with
    | none => .error "Order not found"
    | some r =>
      let taxRate := r.tax_rate / 100
      let serviceChargeRate := r.service_charge_rate / 100
      let bills := (billSplitRaw (itemsOf db oid)).map (fun p =>
        let s := p.2
        { guestId := p.1
          subtotal := toFixed2 s
          taxAmount := toFixed2 (s * taxRate)
          serviceCharge := toFixed2 (s * serviceChargeRate)
          total := toFixed2 (s + s * taxRate + s * serviceChargeRate) : GuestBill })
      .ok (bills, o.total_amount)

/-! ## General lemmas about the row store and the operations -/

lemma find?_map_update (l : List OrderRec) (oid : Nat) (f : OrderRec → OrderRec)
    (hf : ∀ o, (f o).order_id = o.order_id) :
    (l.map (fun o => if o.order_id == oid then f o else o)).find? (fun o => o.order_id == oid)
      = (l.find? (fun o => o.order_id == oid)).map f := by
  induction l with
  | nil => rfl
  | cons a l ih =>
    by_cases h : a.order_id = oid
    · simp [List.find?, h, hf]
    · simp only [List.map_cons, List.find?]
      have hb : (a.order_id == oid) = false := by simp [h]
      simp only [hb, if_false, hb]
      simpa [hb] using ih

lemma findOrder_updateOrderRow (db : DB) (oid : Nat) (f : OrderRec → OrderRec)
    (hf : ∀ o, (f o).order_id = o.order_id) :
    findOrder (updateOrderRow db oid f) oid = (findOrder db oid).map f :=
  find?_map_update db.orders oid f hf

lemma itemsOf_updateOrderRow (db : DB) (oid : Nat) (f : OrderRec → OrderRec) (oid' : Nat) :
    itemsOf (updateOrderRow db oid f) oid' = itemsOf db oid' := rfl

lemma orderItems_recalculateOrderTotals (db : DB) (oid : Nat) :
    (recalculateOrderTotals db oid).orderItems = db.orderItems := by
  unfold recalculateOrderTotals
  split
  · rfl
  · split
    · rfl
    · rfl

lemma tables_recalculateOrderTotals (db : DB) (oid : Nat) :
    (recalculateOrderTotals db oid).tables = db.tables := by
  unfold recalculateOrderTotals
  split
  · rfl
  · split
    · rfl
    · rfl

lemma recalculateOrderTotals_found (db : DB) (oid : Nat) (o : OrderRec) (r : RestaurantRec)
    (ho : findOrder db oid = some o) (hr : findRestaurant db o.restaurant_id = some r) :
    findOrder (recalculateOrderTotals db oid) oid =
      some { o with
              subtotal := toFixed2 (rawSubtotal db oid)
              tax_amount := toFixed2 (rawSubtotal db oid * (r.tax_rate / 100))
              service_charge := toFixed2 (rawSubtotal db oid * (r.service_charge_rate / 100))
              total_amount := toFixed2 (rawSubtotal db oid
                + rawSubtotal db oid * (r.tax_rate / 100)
                + rawSubtotal db oid * (r.service_charge_rate / 100)) } := by
  unfold recalculateOrderTotals
  split
  · next h => rw [ho] at h; cases h
  · next o' h =>
    rw [ho] at h
    injection h with h
    subst h
    split
    · next h2 => rw [hr] at h2; cases h2
    · next r' h2 =>
      rw [hr] at h2
      injection h2 with h2
      subst h2
      dsimp only
      rw [findOrder_updateOrderRow db oid, ho]
      · rfl
      · intro x
        rfl

lemma mostRecent_cons_ne_none (a : OrderRec) (l : List OrderRec) :
    mostRecent (a :: l) ≠ none := by
  intro h
  simp only [mostRecent] at h
  cases h' : mostRecent l with
  | none =>
    rw [h'] at h
    have h2 : some a = none := h
    cases h2
  | some b =>
    rw [h'] at h
    have h2 : (if a.created_at < b.created_at then some b else some a) = none := h
    by_cases hc : a.created_at < b.created_at
    · rw [if_pos hc] at h2; cases h2
    · rw [if_neg hc] at h2; cases h2

lemma mostRecent_eq_none_iff (l : List OrderRec) : mostRecent l = none ↔ l = [] := by
  cases l with
  | nil => simp [mostRecent]
  | cons a l =>
    constructor
    · intro h
      exact absurd h (mostRecent_cons_ne_none a l)
    · intro h
      exact absurd h (List.cons_ne_nil a l)

lemma mostRecent_mem {l : List OrderRec} {o : OrderRec} : mostRecent l = some o → o ∈ l := by
  induction l with
  | nil => intro h; simp [mostRecent] at h
  | cons a l ih =>
    intro h
    simp only [mostRecent] at h
    cases h' : mostRecent l with
    | none =>
      rw [h'] at h
      have h2 : some a = some o := h
      injection h2 with h2
      subst h2
      exact List.mem_cons_self a l
    | some b =>
      rw [h'] at h
      have h2 : (if a.created_at < b.created_at then some b else some a) = some o := h
      by_cases hc : a.created_at < b.created_at
      · rw [if_pos hc] at h2
        injection h2 with h2
        subst h2
        exact List.mem_cons_of_mem _ (ih h')
      · rw [if_neg hc] at h2
        injection h2 with h2
        subst h2
        exact List.mem_cons_self a l

lemma findActiveOrder_some {db : DB} {tid rid : Nat} {o : OrderRec}
    (h : findActiveOrder db tid rid = some o) :
    o ∈ db.orders ∧ matchesScan tid rid o = true := by
  have hm := mostRecent_mem h
  exact ⟨(List.mem_filter.mp hm).1, (List.mem_filter.mp hm).2⟩

lemma findActiveOrder_eq_none_iff (db : DB) (tid rid : Nat) :
    findActiveOrder db tid rid = none ↔ ∀ o ∈ db.orders, matchesScan tid rid o = false := by
  unfold findActiveOrder
  rw [mostRecent_eq_none_iff, List.filter_eq_nil_iff]
  constructor
  · intro h o ho
    exact Bool.eq_false_iff.mpr (h o ho)
  · intro h o ho
    exact Bool.eq_false_iff.mp (h o ho)

lemma isCents_zero : isCents 0 := ⟨0, by norm_num⟩

lemma isCents_add {a b : ℚ} (ha : isCents a) (hb : isCents b) : isCents (a + b) := by
  obtain ⟨m, rfl⟩ := ha
  obtain ⟨n, rfl⟩ := hb
  exact ⟨m + n, by push_cast; ring⟩

lemma isCents_listSum {l : List ℚ} (h : ∀ x ∈ l, isCents x) : isCents l.sum := by
  induction l with
  | nil => exact isCents_zero
  | cons a l ih =>
    rw [List.sum_cons]
    exact isCents_add (h a (List.mem_cons_self a l)) (ih (fun x hx => h x (List.mem_cons_of_mem a hx)))

lemma foldl_add_subtotal (l : List OrderItemRec) (a : ℚ) :
    l.foldl (fun s it => s + it.subtotal) a = a + (l.map (fun it => it.subtotal)).sum := by
  induction l generalizing a with
  | nil => simp
  | cons x l ih =>
    simp only [List.foldl_cons, List.map_cons, List.sum_cons]
    rw [ih]
    ring

lemma rawSubtotal_eq_sum (db : DB) (oid : Nat) :
    rawSubtotal db oid = ((itemsOf db oid).map (fun it => it.subtotal)).sum := by
  unfold rawSubtotal
  rw [foldl_add_subtotal]
  ring

lemma upsertGuest_sndSum (acc : List (Nat × ℚ)) (gid : Nat) (v : ℚ) :
    ((upsertGuest acc gid v).map Prod.snd).sum = (acc.map Prod.snd).sum + v := by
  induction acc with
  | nil => simp [upsertGuest]
  | cons p acc ih =>
    obtain ⟨g, s⟩ := p
    by_cases h : g = gid
    · simp [upsertGuest, h]
      ring
    · simp [upsertGuest, h, ih]
      ring

lemma billSplitRaw_sndSum (items : List OrderItemRec) :
    ((billSplitRaw items).map Prod.snd).sum = (items.map (fun it => it.subtotal)).sum := by
  unfold billSplitRaw
  suffices h : ∀ acc : List (Nat × ℚ),
      ((items.foldl (fun acc it => upsertGuest acc it.added_by_guest_id it.subtotal) acc).map
        Prod.snd).sum = (acc.map Prod.snd).sum + (items.map (fun it => it.subtotal)).sum by
    simpa using h []
  induction items with
  | nil => intro acc; simp
  | cons x items ih =>
    intro acc
    simp only [List.foldl_cons, List.map_cons, List.sum_cons]
    rw [ih, upsertGuest_sndSum]
    ring

lemma upsertGuest_cents {acc : List (Nat × ℚ)} {gid : Nat} {v : ℚ}
    (hacc : ∀ p ∈ acc, isCents p.2) (hv : isCents v) :
    ∀ p ∈ upsertGuest acc gid v, isCents p.2 := by
  induction acc with
  | nil =>
    intro p hp
    simp [upsertGuest] at hp
    rw [hp]
    exact hv
  | cons q acc ih =>
    obtain ⟨g, s⟩ := q
    intro p hp
    by_cases h : g = gid
    · simp [upsertGuest, h] at hp
      rcases hp with hp | hp
      · rw [hp]
        exact isCents_add (hacc ⟨g, s⟩ (List.mem_cons_self _ _)) hv
      · exact hacc p (List.mem_cons_of_mem _ hp)
    · simp only [upsertGuest, if_neg h] at hp
      rcases List.mem_cons.mp hp with hp | hp
      · rw [hp]
        exact hacc ⟨g, s⟩ (List.mem_cons_self _ _)
      · exact ih (fun q hq => hacc q (List.mem_cons_of_mem _ hq)) p hp

lemma billSplitRaw_cents {items : List OrderItemRec}
    (h : ∀ it ∈ items, isCents it.subtotal) :
    ∀ p ∈ billSplitRaw items, isCents p.2 := by
  unfold billSplitRaw
  suffices hgen : ∀ acc : List (Nat × ℚ), (∀ p ∈ acc, isCents p.2) →
      ∀ p ∈ items.foldl (fun acc it => upsertGuest acc it.added_by_guest_id it.subtotal) acc,
        isCents p.2 by
    exact hgen [] (by intro p hp; simp at hp)
  induction items with
  | nil => intro acc hacc p hp; exact hacc p hp
  | cons x items ih =>
    intro acc hacc p hp
    simp only [List.foldl_cons] at hp
    exact ih (fun it hit => h it (List.mem_cons_of_mem _ hit))
      _ (upsertGuest_cents hacc (h x (List.mem_cons_self _ _))) p hp

lemma status_contains_iff (l : List OrderStatus) (s : OrderStatus) :
    l.contains s = true ↔ s ∈ l := by
  simp

lemma matchesScan_iff (tid rid : Nat) (o : OrderRec) :
    matchesScan tid rid o = true ↔
      o.table_id = tid ∧ o.restaurant_id = rid ∧ o.status ∈ scanActiveStatuses := by
  simp [matchesScan, Bool.and_eq_true, status_contains_iff, and_assoc]

lemma validateGuestSession_ok {db : DB} {tok : Nat} {g : GuestCtx}
    (h : validateGuestSession db tok = .ok g) :
    ∃ gr o, db.guests.find? (fun x => x.session_token == tok) = some gr ∧
      gr.guest_id = g.guestId ∧ gr.order_id = g.orderId ∧
      findOrder db g.orderId = some o ∧ o.status ∈ sessionActiveStatuses := by
  unfold validateGuestSession at h
  cases hg : db.guests.find? (fun x => x.session_token == tok) with
  | none =>
    rw [hg] at h
    exact absurd h (by simp)
  | some gr =>
    rw [hg] at h
    have h1 : (match findOrder db gr.order_id with
      | none => (Except.error "Invalid session token" : Except String GuestCtx)
      | some o =>
        if sessionActiveStatuses.contains o.status = true then
          Except.ok { guestId := gr.guest_id, orderId := gr.order_id }
        else Except.error "Order session has ended") = Except.ok g := h
    cases ho : findOrder db gr.order_id with
    | none =>
      rw [ho] at h1
      exact absurd h1 (by simp)
    | some o =>
      rw [ho] at h1
      have h2 : (if sessionActiveStatuses.contains o.status = true then
          Except.ok { guestId := gr.guest_id, orderId := gr.order_id }
        else (Except.error "Order session has ended" : Except String GuestCtx)) = Except.ok g := h1
      by_cases hs : sessionActiveStatuses.contains o.status = true
      · rw [if_pos hs] at h2
        injection h2 with h2
        subst h2
        exact ⟨gr, o, rfl, rfl, rfl, ho, (status_contains_iff _ _).mp hs⟩
      · rw [if_neg hs] at h2
        exact absurd h2 (by simp)

/-! ## Test fixtures: concrete database states -/

/-- A restaurant with 14% tax and 12% service charge. -/
def rTest : RestaurantRec :=
  { restaurant_id := 1, tax_rate := 14, service_charge_rate := 12, is_active := true }

/-- An empty restaurant with one free table and no orders. -/
def dbEmptyTable : DB :=
  { restaurants := [rTest]
    tables := [{ table_id := 1, restaurant_id := 1, status := .available }]
    orders := [], orderItems := [], guests := [], menuItems := []
    nextOrderId := 1, nextOrderItemId := 1 }

/-- An order in status `ready` occupying table 1. -/
def oReady : OrderRec :=
  { order_id := 1, restaurant_id := 1, table_id := 1, status := .ready
    subtotal := 150, tax_amount := 21, service_charge := 18, discount_amount := 0
    total_amount := 189, created_at := 1 }

/-- Table 1 is occupied by `oReady`. -/
def dbReadyOrder : DB :=
  { restaurants := [rTest]
    tables := [{ table_id := 1, restaurant_id := 1, status := .occupied }]
    orders := [oReady], orderItems := [], guests := [{ guest_id := 1, order_id := 1, session_token := 42 }]
    menuItems := [], nextOrderId := 2, nextOrderItemId := 1 }

/-- C1. For every table with no order in an active status, two concurrent
scan requests (handleQRScan / getOrCreateTableSession) on that table
result in exactly one order being created, and both requests resolve to
the same order id.

The code has no serialization point: when both scans run their `findOne`
before either `Order.create` (schedule read-A, read-B, write-A, write-B
on a table with no orders), each sees no active order and each creates a
fresh order. The run below ends with two orders in the store and the two
requests resolved to different order ids (1 and 2); the same two scans
run back-to-back (schedule A, A, B, B) create one order and agree on its
id, confirming that the defect is exactly the unserialized interleaving
the spec's concurrency contract mandates against. -/
theorem C1_concurrent_scans_duplicate_order :
    (runTwoScans dbEmptyTable 1 1 [true, false, true, false]).1.orders.length = 2 ∧
    (runTwoScans dbEmptyTable 1 1 [true, false, true, false]).2.1.result = some 1 ∧
    (runTwoScans dbEmptyTable 1 1 [true, false, true, false]).2.2.result = some 2 ∧
    (runTwoScans dbEmptyTable 1 1 [true, true, false, false]).1.orders.length = 1 ∧
    (runTwoScans dbEmptyTable 1 1 [true, true, false, false]).2.1.result = some 1 ∧
    (runTwoScans dbEmptyTable 1 1 [true, true, false, false]).2.2.result = some 1 :=
  ⟨rfl, rfl, rfl, rfl, rfl, rfl⟩

/-- C2 counterexample. The claim says a scan on a table whose most
recent order has status `ready` joins that order. In the code the
`findOne` of `getOrCreateTableSession` filters on
`['pending', 'confirmed', 'preparing']` only, so on `dbReadyOrder`
(one `ready` order on table 1) the scan creates a second order (id 2,
`created` flag true) instead of joining order 1. -/
theorem C2_ready_not_joined_counterexample :
    dbReadyOrder.orders.map (fun o => o.status) = [.ready] ∧
    (getOrCreateTableSession dbReadyOrder 1 1).2.2 = true ∧
    (getOrCreateTableSession dbReadyOrder 1 1).2.1 = 2 ∧
    (getOrCreateTableSession dbReadyOrder 1 1).1.orders.length = 2 :=
  ⟨rfl, rfl, rfl, rfl⟩

/-- C2 (amended): the find-or-create step joins an existing order
exactly when some order of the table has status in
{pending, confirmed, preparing} — `ready` is not in the set — and when
it joins, it returns the id of the found active order and leaves the
store unchanged. -/
theorem C2_scan_active_set :
    ∀ (db : DB) (tid rid : Nat),
      ((getOrCreateTableSession db tid rid).2.2 = false ↔
        ∃ o ∈ db.orders, o.table_id = tid ∧ o.restaurant_id = rid ∧
          o.status ∈ scanActiveStatuses) ∧
      (∀ o, findActiveOrder db tid rid = some o →
        getOrCreateTableSession db tid rid = (db, o.order_id, false) ∧
          o.status ∈ scanActiveStatuses) := by
  intro db tid rid
  constructor
  · unfold getOrCreateTableSession
    cases h : findActiveOrder db tid rid with
    | some o =>
      obtain ⟨hmem, hmatch⟩ := findActiveOrder_some h
      obtain ⟨h1, h2, h3⟩ := (matchesScan_iff tid rid o).mp hmatch
      constructor
      · intro _
        exact ⟨o, hmem, h1, h2, h3⟩
      · intro _
        rfl
    | none =>
      constructor
      · intro hfalse
        have htf : (true : Bool) = false := hfalse
        cases htf
      · rintro ⟨o, hmem, h1, h2, h3⟩
        have hnone := (findActiveOrder_eq_none_iff db tid rid).mp h o hmem
        rw [(matchesScan_iff tid rid o).mpr ⟨h1, h2, h3⟩] at hnone
        cases hnone
  · intro o h
    have hstat := ((matchesScan_iff tid rid o).mp (findActiveOrder_some h).2).2.2
    unfold getOrCreateTableSession
    rw [h]
    exact ⟨rfl, hstat⟩

/-- C2 witness: on `dbReadyOrder` no order matches the scan-active set,
so the session is created fresh (`created` flag true); instantiating the
amended theorem confirms the join condition is falsified there. -/
theorem C2_scan_active_set_witness :
    (getOrCreateTableSession dbReadyOrder 1 1).2.2 = true :=
  by
    have h := (C2_scan_active_set dbReadyOrder 1 1).1
    cases hb : (getOrCreateTableSession dbReadyOrder 1 1).2.2 with
    | false =>
      obtain ⟨o, hmem, -, -, hstat⟩ := h.mp hb
      have ho : o = oReady := by
        simp only [dbReadyOrder] at hmem
        simpa using hmem
      subst ho
      simp [oReady, scanActiveStatuses] at hstat
    | true => rfl

/-- An order with a stored `discount_amount` of 10 and one 100.00 item. -/
def oDiscounted : OrderRec :=
  { order_id := 1, restaurant_id := 1, table_id := 1, status := .pending
    subtotal := 0, tax_amount := 0, service_charge := 0, discount_amount := 10
    total_amount := 0, created_at := 1 }

/-- Store with `oDiscounted` and one item of subtotal 100. -/
def dbDiscounted : DB :=
  { restaurants := [rTest]
    tables := [{ table_id := 1, restaurant_id := 1, status := .occupied }]
    orders := [oDiscounted]
    orderItems := [{ order_item_id := 1, order_id := 1, menu_item_id := 1,
                     added_by_guest_id := 1, quantity := 1, unit_price := 100, subtotal := 100 }]
    guests := [{ guest_id := 1, order_id := 1, session_token := 42 }]
    menuItems := [{ menu_item_id := 1, price := 100, is_available := true }]
    nextOrderId := 2, nextOrderItemId := 2 }

/-- C3 counterexample. On `dbDiscounted` (subtotal 100, tax 14%,
service 12%, stored discount 10) the recomputation stores
total_amount = 126 = subtotal + tax + service, not
116 = subtotal + tax + service − discount: `recalculateOrderTotals`
never subtracts `discount_amount`. -/
theorem C3_discount_ignored_counterexample :
    (findOrder (recalculateOrderTotals dbDiscounted 1) 1).map
        (fun o => (o.subtotal, o.tax_amount, o.service_charge, o.discount_amount, o.total_amount))
      = some (100, 14, 12, 10, 126) ∧
    (126 : ℚ) ≠ 100 + 14 + 12 - 10 := by
  constructor
  · simp [recalculateOrderTotals, findOrder, findRestaurant, itemsOf, updateOrderRow,
      rawSubtotal, toFixed2, dbDiscounted, oDiscounted, rTest]
    norm_num
  · norm_num

/-- C3 (amended): after a totals recomputation the stored fields satisfy
subtotal = round2(Σ item.subtotal),
tax_amount = round2(subtotal_raw × tax_rate/100),
service_charge = round2(subtotal_raw × service_rate/100) and
total_amount = round2(subtotal_raw + tax_raw + service_raw); the stored
`discount_amount` is left unchanged and is NOT subtracted from
total_amount. -/
theorem C3_totals_without_discount :
    ∀ (db : DB) (oid : Nat) (o : OrderRec) (r : RestaurantRec),
      findOrder db oid = some o →
      findRestaurant db o.restaurant_id = some r →
      ∃ o', findOrder (recalculateOrderTotals db oid) oid = some o' ∧
        o'.subtotal = toFixed2 (rawSubtotal db oid) ∧
        o'.tax_amount = toFixed2 (rawSubtotal db oid * (r.tax_rate / 100)) ∧
        o'.service_charge = toFixed2 (rawSubtotal db oid * (r.service_charge_rate / 100)) ∧
        o'.discount_amount = o.discount_amount ∧
        o'.total_amount = toFixed2 (rawSubtotal db oid
          + rawSubtotal db oid * (r.tax_rate / 100)
          + rawSubtotal db oid * (r.service_charge_rate / 100)) := by
  intro db oid o r ho hr
  exact ⟨_, recalculateOrderTotals_found db oid o r ho hr, rfl, rfl, rfl, rfl, rfl⟩

/-- C3 witness: the amended theorem instantiated on `dbDiscounted`. -/
theorem C3_totals_without_discount_witness :
    ∃ o', findOrder (recalculateOrderTotals dbDiscounted 1) 1 = some o' ∧
      o'.subtotal = toFixed2 (rawSubtotal dbDiscounted 1) ∧
      o'.tax_amount = toFixed2 (rawSubtotal dbDiscounted 1 * (rTest.tax_rate / 100)) ∧
      o'.service_charge = toFixed2 (rawSubtotal dbDiscounted 1 * (rTest.service_charge_rate / 100)) ∧
      o'.discount_amount = oDiscounted.discount_amount ∧
      o'.total_amount = toFixed2 (rawSubtotal dbDiscounted 1
        + rawSubtotal dbDiscounted 1 * (rTest.tax_rate / 100)
        + rawSubtotal dbDiscounted 1 * (rTest.service_charge_rate / 100)) :=
  C3_totals_without_discount dbDiscounted 1 oDiscounted rTest rfl rfl

/-- C8: at every totals recomputation the four stored money fields are
whole numbers of cents produced by `toFixed2`, the tax and service
amounts are computed from the un-rounded raw subtotal (the sum of item
subtotals, not its rounded image), the service version
`calculateOrderTotals` returns the same four rounded values, and the
rounding function is round-half-up to 2 decimals: it moves a value by at
most half a cent and an exact half-cent is rounded upward. -/
theorem C8_rounding_policy :
    ∀ (db : DB) (oid : Nat) (o : OrderRec) (r : RestaurantRec),
      findOrder db oid = some o →
      findRestaurant db o.restaurant_id = some r →
      (∃ o', findOrder (recalculateOrderTotals db oid) oid = some o' ∧
        isCents o'.subtotal ∧ isCents o'.tax_amount ∧
        isCents o'.service_charge ∧ isCents o'.total_amount ∧
        o'.subtotal = toFixed2 (rawSubtotal db oid) ∧
        o'.tax_amount = toFixed2 (rawSubtotal db oid * (r.tax_rate / 100)) ∧
        o'.service_charge = toFixed2 (rawSubtotal db oid * (r.service_charge_rate / 100)) ∧
        o'.total_amount = toFixed2 (rawSubtotal db oid
          + rawSubtotal db oid * (r.tax_rate / 100)
          + rawSubtotal db oid * (r.service_charge_rate / 100))) ∧
      calculateOrderTotals db oid = some
        (toFixed2 (rawSubtotal db oid),
         toFixed2 (rawSubtotal db oid * (r.tax_rate / 100)),
         toFixed2 (rawSubtotal db oid * (r.service_charge_rate / 100)),
         toFixed2 (rawSubtotal db oid
           + rawSubtotal db oid * (r.tax_rate / 100)
           + rawSubtotal db oid * (r.service_charge_rate / 100))) ∧
      (∀ q : ℚ, q - 1/200 < toFixed2 q ∧ toFixed2 q ≤ q + 1/200) ∧
      (∀ n : ℤ, toFixed2 (((2 * n + 1 : ℤ) : ℚ) / 200) = ((n + 1 : ℤ) : ℚ) / 100) := by
  intro db oid o r ho hr
  refine ⟨⟨_, recalculateOrderTotals_found db oid o r ho hr,
      toFixed2_cents _, toFixed2_cents _, toFixed2_cents _, toFixed2_cents _,
      rfl, rfl, rfl, rfl⟩, ?_, ?_, ?_⟩
  · simp only [calculateOrderTotals, ho, hr]
  · intro q
    exact ⟨lt_toFixed2 q, toFixed2_le q⟩
  · exact toFixed2_half_rounds_up

/-- C8 witness: the rounding theorem instantiated on `dbDiscounted`;
in particular 100 × 14% rounds to exactly 14.00. -/
theorem C8_rounding_policy_witness :
    (calculateOrderTotals dbDiscounted 1 = some
      (toFixed2 (rawSubtotal dbDiscounted 1),
       toFixed2 (rawSubtotal dbDiscounted 1 * (rTest.tax_rate / 100)),
       toFixed2 (rawSubtotal dbDiscounted 1 * (rTest.service_charge_rate / 100)),
       toFixed2 (rawSubtotal dbDiscounted 1
         + rawSubtotal dbDiscounted 1 * (rTest.tax_rate / 100)
         + rawSubtotal dbDiscounted 1 * (rTest.service_charge_rate / 100)))) ∧
    toFixed2 (((2 * 3 + 1 : ℤ) : ℚ) / 200) = ((3 + 1 : ℤ) : ℚ) / 100 := by
  have h := C8_rounding_policy dbDiscounted 1 oDiscounted rTest rfl rfl
  exact ⟨h.2.1, h.2.2.2 3⟩

lemma updateTableRow_status {db : DB} {tid : Nat} {s : TableStatus} {t : TableRec}
    (ht : t ∈ (updateTableRow db tid s).tables) (h : t.table_id = tid) : t.status = s := by
  obtain ⟨x, hx, hfx⟩ := List.mem_map.mp ht
  by_cases hc : x.table_id = tid
  · rw [if_pos (by simp [hc])] at hfx
    subst hfx
    rfl
  · rw [if_neg (by simp [hc])] at hfx
    subst hfx
    exact absurd h hc

lemma mem_map_update_status {l : List OrderRec} {oid : Nat} {s : OrderStatus} {o' : OrderRec}
    (h : o' ∈ l.map (fun x => if x.order_id == oid then { x with status := s } else x))
    (hid : o'.order_id = oid) : o'.status = s := by
  obtain ⟨x, hx, hfx⟩ := List.mem_map.mp h
  by_cases hc : x.order_id = oid
  · rw [if_pos (by simp [hc])] at hfx
    subst hfx
    rfl
  · rw [if_neg (by simp [hc])] at hfx
    subst hfx
    exact absurd hid hc

lemma updateOrderStatusWith_ok {valid : List OrderStatus} {db : DB} {rid oid : Nat}
    {s : OrderStatus} {o : OrderRec}
    (hv : valid.contains s = true)
    (hfind : db.orders.find? (fun x => x.order_id == oid && x.restaurant_id == rid) = some o) :
    updateOrderStatusWith valid db rid oid s =
      (if s = .completed ∨ s = .cancelled then
        updateTableRow (updateOrderRow db oid (fun x => { x with status := s })) o.table_id .available
      else updateOrderRow db oid (fun x => { x with status := s }), .ok s) := by
  unfold updateOrderStatusWith
  rw [hv]
  rw [if_neg (by simp)]
  rw [hfind]

lemma httpValidStatuses_all (s : OrderStatus) : httpValidStatuses.contains s = true := by
  cases s <;> rfl

/-- C5 counterexample. An order in `ready` can be set back to `pending`
through the HTTP staff route: the request succeeds and the stored status
becomes `pending`, where the claim requires an invalid-transition
failure leaving the status unchanged. -/
theorem C5_backward_transition_counterexample :
    oReady.status = .ready ∧
    (updateOrderStatus dbReadyOrder 1 1 .pending).2 = .ok .pending ∧
    (findOrder (updateOrderStatus dbReadyOrder 1 1 .pending).1 1).map (fun o => o.status)
      = some .pending :=
  ⟨rfl, rfl, rfl⟩

/-- C5 (amended): neither staff status-update path validates the
transition against the current status. The HTTP route accepts all seven
statuses and unconditionally stores the requested one — in particular
`ready → pending` succeeds there; the socket path stores any status of
its whitelist the same way and rejects `pending` only because `pending`
is missing from that whitelist, not out of any transition logic. -/
theorem C5_no_transition_validation :
    ∀ (db : DB) (rid oid : Nat) (s : OrderStatus) (o : OrderRec),
      db.orders.find? (fun x => x.order_id == oid && x.restaurant_id == rid) = some o →
      ((updateOrderStatus db rid oid s).2 = .ok s ∧
        (∀ o' ∈ (updateOrderStatus db rid oid s).1.orders, o'.order_id = oid → o'.status = s)) ∧
      kitchenUpdateOrderStatus db rid oid .pending
        = (db, .error (.badRequest "Invalid status value")) ∧
      (s ∈ socketValidStatuses →
        (kitchenUpdateOrderStatus db rid oid s).2 = .ok s ∧
        (∀ o' ∈ (kitchenUpdateOrderStatus db rid oid s).1.orders,
          o'.order_id = oid → o'.status = s)) := by
  intro db rid oid s o hfind
  have hhttp := updateOrderStatusWith_ok (httpValidStatuses_all s) hfind
  refine ⟨⟨?_, ?_⟩, rfl, ?_⟩
  · rw [updateOrderStatus, hhttp]
  · intro o' ho' hid
    rw [updateOrderStatus, hhttp] at ho'
    by_cases hterm : s = .completed ∨ s = .cancelled
    · rw [if_pos hterm] at ho'
      exact mem_map_update_status ho' hid
    · rw [if_neg hterm] at ho'
      exact mem_map_update_status ho' hid
  · intro hs
    have hsock := updateOrderStatusWith_ok ((status_contains_iff _ _).mpr hs) hfind
    refine ⟨?_, ?_⟩
    · rw [kitchenUpdateOrderStatus, hsock]
    · intro o' ho' hid
      rw [kitchenUpdateOrderStatus, hsock] at ho'
      by_cases hterm : s = .completed ∨ s = .cancelled
      · rw [if_pos hterm] at ho'
        exact mem_map_update_status ho' hid
      · rw [if_neg hterm] at ho'
        exact mem_map_update_status ho' hid

/-- C5 witness: on the `ready` order of `dbReadyOrder`, the HTTP route
stores `pending` and reports success, while the socket path rejects
`pending` as an unknown status value. -/
theorem C5_no_transition_validation_witness :
    (updateOrderStatus dbReadyOrder 1 1 .pending).2 = .ok .pending ∧
    kitchenUpdateOrderStatus dbReadyOrder 1 1 .pending
      = (dbReadyOrder, .error (.badRequest "Invalid status value")) := by
  have h := C5_no_transition_validation dbReadyOrder 1 1 .pending oReady rfl
  exact ⟨h.1.1, h.2.1⟩

/-- C7: on both staff status-update paths, a successful transition into
`completed` or `cancelled` sets every table row with the owning order's
`table_id` to `available`. -/
theorem C7_terminal_releases_table :
    ∀ (db : DB) (rid oid : Nat) (s : OrderStatus) (o : OrderRec),
      db.orders.find? (fun x => x.order_id == oid && x.restaurant_id == rid) = some o →
      s = .completed ∨ s = .cancelled →
      (∀ t ∈ (updateOrderStatus db rid oid s).1.tables,
        t.table_id = o.table_id → t.status = .available) ∧
      (∀ t ∈ (kitchenUpdateOrderStatus db rid oid s).1.tables,
        t.table_id = o.table_id → t.status = .available) := by
  intro db rid oid s o hfind hterm
  have hsockmem : s ∈ socketValidStatuses := by
    rcases hterm with h | h <;> subst h <;> simp [socketValidStatuses]
  have hhttp := updateOrderStatusWith_ok (httpValidStatuses_all s) hfind
  have hsock := updateOrderStatusWith_ok ((status_contains_iff _ _).mpr hsockmem) hfind
  constructor
  · intro t ht hid
    rw [updateOrderStatus, hhttp, if_pos hterm] at ht
    exact updateTableRow_status ht hid
  · intro t ht hid
    rw [kitchenUpdateOrderStatus, hsock, if_pos hterm] at ht
    exact updateTableRow_status ht hid

/-- C7 witness: completing the `ready` order on table 1 leaves table 1
`available` on the HTTP path. -/
theorem C7_terminal_releases_table_witness :
    ({ table_id := 1, restaurant_id := 1, status := .available } : TableRec) ∈
        (updateOrderStatus dbReadyOrder 1 1 .completed).1.tables ∧
    ({ table_id := 1, restaurant_id := 1, status := .available } : TableRec).status = .available := by
  have h := C7_terminal_releases_table dbReadyOrder 1 1 .completed oReady rfl (Or.inl rfl)
  have hmem : ({ table_id := 1, restaurant_id := 1, status := .available } : TableRec) ∈
      (updateOrderStatus dbReadyOrder 1 1 .completed).1.tables :=
    List.mem_singleton.mpr rfl
  exact ⟨hmem, h.1 _ hmem rfl⟩

lemma validateGuestSession_eq {db : DB} {tok : Nat} {gr : OrderGuestRec} {o : OrderRec}
    (hg : db.guests.find? (fun x => x.session_token == tok) = some gr)
    (ho : findOrder db gr.order_id = some o) :
    validateGuestSession db tok =
      (if o.status ∈ sessionActiveStatuses then
        .ok { guestId := gr.guest_id, orderId := gr.order_id }
      else .error "Order session has ended") := by
  simp only [validateGuestSession, hg, ho]
  by_cases hmem : o.status ∈ sessionActiveStatuses
  · rw [if_pos ((status_contains_iff _ _).mpr hmem), if_pos hmem]
  · rw [if_neg (by simpa [status_contains_iff] using hmem), if_neg hmem]

/-- The order in status `confirmed` used for the mutation-window tests. -/
def oConfirmed : OrderRec :=
  { order_id := 1, restaurant_id := 1, table_id := 1, status := .confirmed
    subtotal := 0, tax_amount := 0, service_charge := 0, discount_amount := 0
    total_amount := 0, created_at := 1 }

/-- An available 50.00 menu item. -/
def mTest : MenuItemRec := { menu_item_id := 7, price := 50, is_available := true }

/-- Store with `oConfirmed`, one guest session and `mTest`. -/
def dbConfirmedOrder : DB :=
  { restaurants := [rTest]
    tables := [{ table_id := 1, restaurant_id := 1, status := .occupied }]
    orders := [oConfirmed], orderItems := []
    guests := [{ guest_id := 1, order_id := 1, session_token := 42 }]
    menuItems := [mTest], nextOrderId := 2, nextOrderItemId := 1 }

/-- C4 counterexample. The claim says addItem on a non-`pending` order
fails with an order-status conflict and creates no item. On
`dbConfirmedOrder` (order status `confirmed`, valid session 42) the
request succeeds and the item is created: `addItemToOrder` checks only
that the session's order is in the active set, never that it is
`pending`. -/
theorem C4_add_item_on_confirmed_counterexample :
    (findOrder dbConfirmedOrder 1).map (fun o => o.status) = some .confirmed ∧
    validateGuestSession dbConfirmedOrder 42 = .ok { guestId := 1, orderId := 1 } ∧
    (addItemToOrder dbConfirmedOrder 42 7 2).2 = .ok 1 ∧
    (addItemToOrder dbConfirmedOrder 42 7 2).1.orderItems.length = 1 ∧
    dbConfirmedOrder.orderItems.length = 0 :=
  ⟨rfl, rfl, rfl, rfl, rfl⟩

/-- The item row `addItemToOrder` inserts: fresh id, bound to the
session's order and guest, price snapshotted from the menu item. -/
def newItemRec (db : DB) (gr : OrderGuestRec) (mid q : Nat) (mi : MenuItemRec) : OrderItemRec :=
  { order_item_id := db.nextOrderItemId
    order_id := gr.order_id
    menu_item_id := mid
    added_by_guest_id := gr.guest_id
    quantity := q
    unit_price := mi.price
    subtotal := mi.price * q }

/-- C4 (amended): item mutation is permitted exactly while the order is
in the session-active set {pending, confirmed, preparing, ready}, not
only while `pending`: with a valid guest row bound to the order,
addItem succeeds (creating the item with the snapshotted price) whenever
the order's status is in that set — `confirmed` included — and when the
status has left the set it fails with the session-ended condition
(an invalid-session error, not an order-status conflict), leaving the
store unchanged. -/
theorem C4_mutation_window_is_active_set :
    ∀ (db : DB) (tok mid q : Nat) (gr : OrderGuestRec) (o : OrderRec),
      db.guests.find? (fun x => x.session_token == tok) = some gr →
      findOrder db gr.order_id = some o →
      1 ≤ q →
      (o.status ∉ sessionActiveStatuses →
        addItemToOrder db tok mid q = (db, .error (.unauthorized "Order session has ended"))) ∧
      (o.status ∈ sessionActiveStatuses →
        ∀ mi, db.menuItems.find? (fun m => m.menu_item_id == mid) = some mi →
          mi.is_available = true →
          (addItemToOrder db tok mid q).2 = .ok db.nextOrderItemId ∧
          (addItemToOrder db tok mid q).1.orderItems
            = db.orderItems ++ [newItemRec db gr mid q mi]) := by
  intro db tok mid q gr o hg ho hq
  have hq1 : ¬ (q < 1) := by omega
  constructor
  · intro hnot
    unfold addItemToOrder
    rw [if_neg hq1, validateGuestSession_eq hg ho, if_neg hnot]
  · intro hmem mi hmi hav
    have hfull : addItemToOrder db tok mid q =
        (recalculateOrderTotals
          { db with
              orderItems := db.orderItems ++ [newItemRec db gr mid q mi]
              nextOrderItemId := db.nextOrderItemId + 1 }
          gr.order_id, .ok db.nextOrderItemId) := by
      unfold addItemToOrder
      rw [if_neg hq1, validateGuestSession_eq hg ho, if_pos hmem]
      simp only [hmi, hav, Bool.not_true]
      rfl
    rw [hfull]
    exact ⟨rfl, orderItems_recalculateOrderTotals _ _⟩

/-- C4 witness: the amended theorem instantiated on `dbConfirmedOrder`:
addItem succeeds on the `confirmed` order and appends the item row. -/
theorem C4_mutation_window_witness :
    (addItemToOrder dbConfirmedOrder 42 7 2).2 = .ok dbConfirmedOrder.nextOrderItemId ∧
    (addItemToOrder dbConfirmedOrder 42 7 2).1.orderItems
      = dbConfirmedOrder.orderItems ++
        [newItemRec dbConfirmedOrder { guest_id := 1, order_id := 1, session_token := 42 } 7 2 mTest] :=
  (C4_mutation_window_is_active_set dbConfirmedOrder 42 7 2
      { guest_id := 1, order_id := 1, session_token := 42 } oConfirmed rfl rfl
      (by decide)).2
    (by decide) mTest rfl rfl

/-- C6: submitOrder fails with the empty-order condition on an order
with zero items (store untouched); it fails on any order whose status is
not `pending` (store untouched); with a valid session for the order it
succeeds exactly on a non-empty `pending` order and then moves it to
`confirmed`. -/
theorem C6_submit_validation :
    ∀ (db : DB) (tok oid : Nat),
      (∀ g, validateGuestSession db tok = .ok g → g.orderId = oid →
        itemsOf db oid = [] →
        submitOrder db tok oid = (db, .error (.badRequest "Cannot submit an empty order"))) ∧
      (∀ o, findOrder db oid = some o → o.status ≠ .pending →
        (submitOrder db tok oid).1 = db ∧ ∃ e, (submitOrder db tok oid).2 = .error e) ∧
      (∀ g o, validateGuestSession db tok = .ok g → g.orderId = oid →
        findOrder db oid = some o → itemsOf db oid ≠ [] → o.status = .pending →
        (submitOrder db tok oid).2 = .ok () ∧
        findOrder (submitOrder db tok oid).1 oid = some { o with status := .confirmed }) ∧
      ((submitOrder db tok oid).2 = .ok () →
        ∃ g o, validateGuestSession db tok = .ok g ∧ g.orderId = oid ∧
          findOrder db oid = some o ∧ itemsOf db oid ≠ [] ∧ o.status = .pending) := by
  intro db tok oid
  refine ⟨?_, ?_, ?_, ?_⟩
  · intro g hg hgid hempty
    obtain ⟨gr, o, -, -, -, ho, -⟩ := validateGuestSession_ok hg
    rw [hgid] at ho
    simp only [submitOrder, hg]
    rw [if_neg (by simp [hgid])]
    simp only [ho, hempty, List.isEmpty_nil, if_true]
  · intro o ho hstat
    cases hv : validateGuestSession db tok with
    | error msg =>
      simp only [submitOrder, hv]
      simp
    | ok g =>
      by_cases hgid : g.orderId = oid
      · simp only [submitOrder, hv]
        rw [if_neg (by simp [hgid])]
        simp only [ho]
        by_cases hemp : (itemsOf db oid).isEmpty
        · rw [if_pos hemp]
          exact ⟨rfl, _, rfl⟩
        · rw [if_neg hemp, if_pos hstat]
          exact ⟨rfl, _, rfl⟩
      · simp only [submitOrder, hv]
        rw [if_pos hgid]
        exact ⟨rfl, _, rfl⟩
  · intro g o hg hgid ho hne hpend
    simp only [submitOrder, hg]
    rw [if_neg (by simp [hgid])]
    simp only [ho]
    rw [if_neg (by simpa [List.isEmpty_iff] using hne), if_neg (by simp [hpend])]
    refine ⟨rfl, ?_⟩
    rw [findOrder_updateOrderRow db oid, ho]
    · rfl
    · intro x
      rfl
  · intro hok
    cases hv : validateGuestSession db tok with
    | error msg =>
      simp only [submitOrder, hv] at hok
      exact absurd hok (by simp)
    | ok g =>
      by_cases hgid : g.orderId = oid
      · obtain ⟨gr, o', -, -, -, ho', -⟩ := validateGuestSession_ok hv
        rw [hgid] at ho'
        simp only [submitOrder, hv] at hok
        rw [if_neg (by simp [hgid])] at hok
        simp only [ho'] at hok
        have hemp : ¬ (itemsOf db oid).isEmpty := by
          intro hemp
          rw [if_pos hemp] at hok
          exact absurd hok (by simp)
        have hpend : o'.status = .pending := by
          by_contra hne
          rw [if_neg hemp, if_pos hne] at hok
          exact absurd hok (by simp)
        exact ⟨g, o', rfl, hgid, ho', by simpa [List.isEmpty_iff] using hemp, hpend⟩
      · simp only [submitOrder, hv] at hok
        rw [if_pos hgid] at hok
        exact absurd hok (by simp)

/-- A pending order with no items and one guest session. -/
def dbPendingEmpty : DB :=
  { restaurants := [rTest]
    tables := [{ table_id := 1, restaurant_id := 1, status := .occupied }]
    orders := [{ order_id := 1, restaurant_id := 1, table_id := 1, status := .pending,
                 subtotal := 0, tax_amount := 0, service_charge := 0, discount_amount := 0,
                 total_amount := 0, created_at := 1 }]
    orderItems := []
    guests := [{ guest_id := 1, order_id := 1, session_token := 42 }]
    menuItems := [], nextOrderId := 2, nextOrderItemId := 1 }

/-- C6 witness: submit fails with the empty-order message on
`dbPendingEmpty`, and succeeds (moving to `confirmed`) on the non-empty
pending order of `dbDiscounted`. -/
theorem C6_submit_validation_witness :
    submitOrder dbPendingEmpty 42 1
      = (dbPendingEmpty, .error (.badRequest "Cannot submit an empty order")) ∧
    (submitOrder dbDiscounted 42 1).2 = .ok () ∧
    findOrder (submitOrder dbDiscounted 42 1).1 1 = some { oDiscounted with status := .confirmed } := by
  have h1 := (C6_submit_validation dbPendingEmpty 42 1).1
    { guestId := 1, orderId := 1 } rfl rfl rfl
  have h2 := (C6_submit_validation dbDiscounted 42 1).2.2.1
    { guestId := 1, orderId := 1 } oDiscounted rfl rfl rfl (by decide) rfl
  exact ⟨h1, h2.1, h2.2⟩

/-- C10: with a valid guest session bound to order O and an existing
item row, the only ownership check of updateOrderItem / removeOrderItem
is item-belongs-to-order: the Forbidden error is raised exactly when the
item's `order_id` differs from the session's order, and when it matches
the mutation succeeds — the item's `added_by_guest_id` is never compared
with the caller, so any guest of the order can change or delete any
other guest's items. -/
theorem C10_ownership_is_order_scoped :
    ∀ (db : DB) (tok itemId q : Nat) (g : GuestCtx) (it : OrderItemRec),
      validateGuestSession db tok = .ok g →
      db.orderItems.find? (fun x => x.order_item_id == itemId) = some it →
      1 ≤ q →
      (((updateOrderItem db tok itemId q).2
          = .error (.forbidden "This item does not belong to your order")) ↔
        it.order_id ≠ g.orderId) ∧
      (((removeOrderItem db tok itemId).2
          = .error (.forbidden "This item does not belong to your order")) ↔
        it.order_id ≠ g.orderId) ∧
      (it.order_id = g.orderId →
        (updateOrderItem db tok itemId q).2 = .ok () ∧
        (removeOrderItem db tok itemId).2 = .ok ()) := by
  intro db tok itemId q g it hv hfind hq
  have hq1 : ¬ (q < 1) := by omega
  by_cases hown : it.order_id = g.orderId
  · have hupd : (updateOrderItem db tok itemId q).2 = .ok () := by
      simp only [updateOrderItem, hv, hfind]
      rw [if_neg hq1, if_neg (by simp [hown])]
    have hrem : (removeOrderItem db tok itemId).2 = .ok () := by
      simp only [removeOrderItem, hv, hfind]
      rw [if_neg (by simp [hown])]
    refine ⟨?_, ?_, fun _ => ⟨hupd, hrem⟩⟩
    · rw [hupd]
      simp [hown]
    · rw [hrem]
      simp [hown]
  · have hupd : (updateOrderItem db tok itemId q).2
        = .error (.forbidden "This item does not belong to your order") := by
      simp only [updateOrderItem, hv, hfind]
      rw [if_neg hq1, if_pos hown]
    have hrem : (removeOrderItem db tok itemId).2
        = .error (.forbidden "This item does not belong to your order") := by
      simp only [removeOrderItem, hv, hfind]
      rw [if_pos hown]
    exact ⟨iff_of_true hupd hown, iff_of_true hrem hown,
      fun h => absurd h hown⟩

/-- A pending shared order: the item was added by guest 1, while a
second guest (session token 43) also sits at the table. -/
def itByGuest1 : OrderItemRec :=
  { order_item_id := 1, order_id := 1, menu_item_id := 7, added_by_guest_id := 1
    quantity := 1, unit_price := 50, subtotal := 50 }

/-- Store for the shared-order ownership witness. -/
def dbTwoGuests : DB :=
  { restaurants := [rTest]
    tables := [{ table_id := 1, restaurant_id := 1, status := .occupied }]
    orders := [{ order_id := 1, restaurant_id := 1, table_id := 1, status := .pending,
                 subtotal := 50, tax_amount := 7, service_charge := 6, discount_amount := 0,
                 total_amount := 63, created_at := 1 }]
    orderItems := [itByGuest1]
    guests := [{ guest_id := 1, order_id := 1, session_token := 42 },
               { guest_id := 2, order_id := 1, session_token := 43 }]
    menuItems := [mTest], nextOrderId := 2, nextOrderItemId := 2 }

/-- C10 witness: guest 2 (token 43) updates and removes the item guest 1
added; both requests succeed. -/
theorem C10_ownership_witness :
    itByGuest1.added_by_guest_id = 1 ∧
    validateGuestSession dbTwoGuests 43 = .ok { guestId := 2, orderId := 1 } ∧
    (updateOrderItem dbTwoGuests 43 1 3).2 = .ok () ∧
    (removeOrderItem dbTwoGuests 43 1).2 = .ok () := by
  have h := (C10_ownership_is_order_scoped dbTwoGuests 43 1 3
      { guestId := 2, orderId := 1 } itByGuest1 rfl rfl (by decide)).2.2 rfl
  exact ⟨rfl, rfl, h.1, h.2⟩

/-- C9: the bill split groups items by adding guest and applies the
restaurant's tax and service rates independently to each guest's own
subtotal (its per-guest fields are the rounded images of that guest's
raw subtotal under the order-level rates, not a proportional share of
the order-level amounts), and — item subtotals being whole cents, as
the DECIMAL(10,2) column guarantees — the per-guest subtotals sum to
the order's stored subtotal exactly. -/
theorem C9_bill_split_per_guest :
    ∀ (db : DB) (oid : Nat) (o : OrderRec) (r : RestaurantRec),
      findOrder db oid = some o →
      findRestaurant db o.restaurant_id = some r →
      (∀ it ∈ itemsOf db oid, isCents it.subtotal) →
      o.subtotal = toFixed2 (rawSubtotal db oid) →
      ∃ bills, calculateBillSplit db oid = .ok (bills, o.total_amount) ∧
        (bills.map (fun b => b.subtotal)).sum = o.subtotal ∧
        ∀ b ∈ bills,
          b.taxAmount = toFixed2 (b.subtotal * (r.tax_rate / 100)) ∧
          b.serviceCharge = toFixed2 (b.subtotal * (r.service_charge_rate / 100)) ∧
          b.total = toFixed2 (b.subtotal + b.subtotal * (r.tax_rate / 100)
            + b.subtotal * (r.service_charge_rate / 100)) := by
  intro db oid o r ho hr hc hsub
  have hcents : ∀ p ∈ billSplitRaw (itemsOf db oid), isCents p.2 := billSplitRaw_cents hc
  refine ⟨(billSplitRaw (itemsOf db oid)).map (fun p =>
      { guestId := p.1, subtotal := toFixed2 p.2,
        taxAmount := toFixed2 (p.2 * (r.tax_rate / 100)),
        serviceCharge := toFixed2 (p.2 * (r.service_charge_rate / 100)),
        total := toFixed2 (p.2 + p.2 * (r.tax_rate / 100)
          + p.2 * (r.service_charge_rate / 100)) }), ?_, ?_, ?_⟩
  · simp only [calculateBillSplit, ho, hr]
  · rw [List.map_map]
    have hpt : ((billSplitRaw (itemsOf db oid)).map
          ((fun b : GuestBill => b.subtotal) ∘ (fun p =>
            ({ guestId := p.1, subtotal := toFixed2 p.2,
               taxAmount := toFixed2 (p.2 * (r.tax_rate / 100)),
               serviceCharge := toFixed2 (p.2 * (r.service_charge_rate / 100)),
               total := toFixed2 (p.2 + p.2 * (r.tax_rate / 100)
                 + p.2 * (r.service_charge_rate / 100)) } : GuestBill))))
        = (billSplitRaw (itemsOf db oid)).map Prod.snd := by
      apply List.map_congr_left
      intro p hp
      exact toFixed2_of_isCents (hcents p hp)
    rw [hpt, billSplitRaw_sndSum, ← rawSubtotal_eq_sum, hsub]
    exact (toFixed2_of_isCents (by
      rw [rawSubtotal_eq_sum]
      apply isCents_listSum
      intro x hx
      obtain ⟨it, hit, rfl⟩ := List.mem_map.mp hx
      exact hc it hit)).symm
  · intro b hb
    obtain ⟨p, hp, rfl⟩ := List.mem_map.mp hb
    have hps := toFixed2_of_isCents (hcents p hp)
    refine ⟨?_, ?_, ?_⟩ <;> simp only [hps]

/-- Item of guest 1 worth 100.00. -/
def itSplitA : OrderItemRec :=
  { order_item_id := 1, order_id := 1, menu_item_id := 7, added_by_guest_id := 1
    quantity := 2, unit_price := 50, subtotal := 100 }

/-- Item of guest 2 worth 50.00. -/
def itSplitB : OrderItemRec :=
  { order_item_id := 2, order_id := 1, menu_item_id := 7, added_by_guest_id := 2
    quantity := 1, unit_price := 50, subtotal := 50 }

/-- The order of the worked example: subtotal 150, tax 21, service 18,
total 189. -/
def oSplit : OrderRec :=
  { order_id := 1, restaurant_id := 1, table_id := 1, status := .pending
    subtotal := 150, tax_amount := 21, service_charge := 18, discount_amount := 0
    total_amount := 189, created_at := 1 }

/-- Store for the bill-split witness: two guests, items 100 and 50. -/
def dbSplit : DB :=
  { restaurants := [rTest]
    tables := [{ table_id := 1, restaurant_id := 1, status := .occupied }]
    orders := [oSplit]
    orderItems := [itSplitA, itSplitB]
    guests := [{ guest_id := 1, order_id := 1, session_token := 42 },
               { guest_id := 2, order_id := 1, session_token := 43 }]
    menuItems := [], nextOrderId := 2, nextOrderItemId := 3 }

/-- C9 witness: the bill-split theorem instantiated on `dbSplit`
(guest subtotals 100 and 50 against order subtotal 150, rates 14%/12%). -/
theorem C9_bill_split_witness :
    ∃ bills, calculateBillSplit dbSplit 1 = .ok (bills, oSplit.total_amount) ∧
      (bills.map (fun b => b.subtotal)).sum = oSplit.subtotal ∧
      ∀ b ∈ bills,
        b.taxAmount = toFixed2 (b.subtotal * (rTest.tax_rate / 100)) ∧
        b.serviceCharge = toFixed2 (b.subtotal * (rTest.service_charge_rate / 100)) ∧
        b.total = toFixed2 (b.subtotal + b.subtotal * (rTest.tax_rate / 100)
          + b.subtotal * (rTest.service_charge_rate / 100)) :=
  C9_bill_split_per_guest dbSplit 1 oSplit rTest rfl rfl
    (by
      intro it hit
      have h2 : it ∈ [itSplitA, itSplitB] := hit
      rcases List.mem_cons.mp h2 with rfl | h3
      · exact ⟨10000, by norm_num [itSplitA]⟩
      · rcases List.mem_cons.mp h3 with rfl | h4
        · exact ⟨5000, by norm_num [itSplitB]⟩
        · exact absurd h4 (List.not_mem_nil it))
    (by
      show (150 : ℚ) = toFixed2 ((0 + 100) + 50)
      norm_num [toFixed2])
